import Mathlib

/-!
Verification development for the webhook subscription registry and the
inbound-webhook processing pipeline of the shopify-api-js library.

The definitions below are a shallow embedding of the registry module
(`WebhooksRegistry`, `buildCheckQuery`, `buildQuery`, `isSuccess`,
`validateDeliveryMethod`).  The remote GraphQL client and the ambient
`Context` globals are external collaborators and are modelled as explicit
parameters.  JavaScript string operations are modelled over character
lists so that every definition is executable by kernel reduction.
-/

namespace ShopifyWebhooks

/-! ## JavaScript string primitives, modelled over character lists -/

/-- Model of the JavaScript `String.prototype.toLowerCase` on ASCII data:
a character-wise lowering of the underlying character list. -/
def jsToLower (s : String) : String :=
  String.mk (s.data.map Char.toLower)

/-- Model of the JavaScript `String.prototype.toUpperCase` on ASCII data:
a character-wise uppering of the underlying character list. -/
def jsToUpper (s : String) : String :=
  String.mk (s.data.map Char.toUpper)

/-- Helper for the JavaScript `split` on a one-character separator:
walks the character list, accumulating the current segment in reverse. -/
def splitCharAux (sep : Char) : List Char → List Char → List String
  | [], acc => [String.mk acc.reverse]
  | c :: cs, acc =>
    if c == sep then String.mk acc.reverse :: splitCharAux sep cs []
    else splitCharAux sep cs (c :: acc)

/-- Model of the JavaScript `address.split(sep)` for a one-character
separator: the empty string splits to `[""]`, as in JavaScript. -/
def jsSplit (s : String) (sep : Char) : List String :=
  splitCharAux sep s.data []

/-- Whether the first list is an initial segment of the second. -/
def listIsStart : List Char → List Char → Bool
  | [], _ => true
  | _ :: _, [] => false
  | p :: ps, c :: cs => p == c && listIsStart ps cs

/-- Model of the JavaScript `address.replace(/^pubsub:\/\//, "")`: when the
address begins with the nine characters of the pub/sub scheme they are
removed, otherwise the address is unchanged. -/
def dropPubsubScheme (address : String) : String :=
  if listIsStart "pubsub://".data address.data then String.mk (address.data.drop 9)
  else address

/-- Model of JavaScript string interpolation of a possibly-undefined value:
`undefined` renders as the text "undefined". -/
def jsUndefined : Option String → String
  | some s => s
  | none => "undefined"

/-- Model of JavaScript truthiness for an optional string: absent values
and the empty string are falsy. -/
def jsFalsy : Option String → Bool
  | none => true
  | some s => s == ""

/-- Model of JavaScript truthiness for an optional string value used in a
condition position: the negation of `jsFalsy`, so the empty string is
falsy. -/
def jsTruthy (s : Option String) : Bool := !(jsFalsy s)

/-- Topic normalization used by `process` before the handler lookup:
`topic.toUpperCase().replace(/\//g, "_")`. -/
def normalizeTopic (topic : String) : String :=
  String.mk ((jsToUpper topic).data.map (fun c => if c == '/' then '_' else c))

/-! ## Data model of the registry module -/

/-- The closed enumeration of delivery methods (`DeliveryMethod` in
`webhooks/types`). -/
inductive DeliveryMethod where
  | Http
  | EventBridge
  | PubSub
deriving DecidableEq, Repr

/-- The ambient configuration read by the registry module.  `hostName` and
`apiVersion` embed `Context.HOST_NAME` and `Context.API_VERSION`.
`supportsPubSub` is Modelled from the spec: it stands for
`ShopifyUtilities.versionCompatible(ApiVersion.July21)` (whether the
configured API version is at or after the July 2021 cutoff), whose
implementation is not part of the embedded sources. -/
structure Context where
  hostName : String
  apiVersion : String
  supportsPubSub : Bool

/-- A failure of the remote GraphQL transport (a rejected
`client.query` call). -/
inductive TransportError where
  | network (message : String)
deriving DecidableEq, Repr

/-- Errors raised by the registration path: the version-gate error thrown
by `validateDeliveryMethod` (`ShopifyErrors.UnsupportedClientType`, the
spec's `UnsupportedTransport`), or a propagated transport failure. -/
inductive RegisterError where
  | unsupportedClientType (message : String)
  | transport (error : TransportError)
deriving DecidableEq, Repr

/-- The discriminated endpoint union returned by the check query
(`__typename` with the per-kind address fields). -/
inductive WebhookEndpoint where
  | http (callbackUrl : String)
  | eventBridge (arn : String)
  | pubSub (pubSubProject : String) (pubSubTopic : String)
deriving DecidableEq, Repr

/-- One `node` of the check-query response: subscription id plus its
endpoint. -/
structure WebhookNode where
  id : String
  endpoint : WebhookEndpoint
deriving DecidableEq, Repr

/-- One edge of `data.webhookSubscriptions.edges`. -/
structure WebhookEdge where
  node : WebhookNode
deriving DecidableEq, Repr

/-- The shape of the check-query response consumed by `register`:
`checkResult.body.data.webhookSubscriptions.edges`. -/
structure WebhookCheckResponse where
  edges : List WebhookEdge
deriving DecidableEq, Repr

/-- The named result object of one mutation field:
`data.<mutationName>.webhookSubscription` (the id when non-null). -/
structure MutationField where
  webhookSubscription : Option String
deriving DecidableEq, Repr

/-- The body of a mutation response: an optional `data` object holding
named mutation results. -/
structure MutationBody where
  data : Option (List (String × MutationField))
deriving DecidableEq, Repr

/-- Per-topic registration outcome (`RegisterReturn[topic]`): the decoded
success flag and the raw response body.  `none` models the empty object
stored for a skipped registration. -/
structure RegisterResult where
  success : Bool
  result : Option MutationBody
deriving DecidableEq, Repr

/-- The mapping returned by `register` and `registerAll`, keyed by topic. -/
abbrev RegisterReturn := List (String × RegisterResult)

/-- The remote GraphQL client (external collaborator).  The single
`client.query` method is split by the response shape that `register`
expects at each of its two call sites: the check query decodes to a
`WebhookCheckResponse` and the mutation to a `MutationBody`. -/
structure ClientOracle where
  check : String → Except TransportError WebhookCheckResponse
  mutate : String → Except TransportError MutationBody

/-- Options of `WebhooksRegistry.register`. -/
structure RegisterOptions where
  path : String
  topic : String
  accessToken : String
  shop : String
  deliveryMethod : DeliveryMethod := DeliveryMethod.Http

/-- Options of `WebhooksRegistry.registerAll`. -/
structure ShortenedRegisterOptions where
  accessToken : String
  shop : String
  deliveryMethod : DeliveryMethod := DeliveryMethod.Http

/-! ## Query construction -/

/-- The pub/sub endpoint fragment of the check query (the JavaScript
line-continuation whitespace is collapsed to single spaces). -/
def pubSubEndpointFragment : String :=
  "... on WebhookPubSubEndpoint \x7b pubSubProject pubSubTopic \x7d"

/-- Embeds `buildCheckQuery`: the read query asking for at most one
existing subscription on the topic, including the pub/sub endpoint
fields only when the active API version supports pub/sub. -/
def buildCheckQuery (ctx : Context) (topic : String) : String :=
  "\x7b\n    webhookSubscriptions(first: 1, topics: " ++ topic ++
  ") \x7b\n      edges \x7b\n        node \x7b\n          id\n          endpoint \x7b\n            __typename\n            ... on WebhookHttpEndpoint \x7b\n              callbackUrl\n            \x7d\n            ... on WebhookEventBridgeEndpoint \x7b\n              arn\n            \x7d\n            " ++
  (if ctx.supportsPubSub then pubSubEndpointFragment else "") ++
  "\n          \x7d\n        \x7d\n      \x7d\n    \x7d\n  \x7d"

/-- Embeds the `mutationName` selection of `buildQuery`: per delivery
method, the ternary `webhookId ? Update : Create`, where a JavaScript
falsy id (absent or the empty string) selects the Create variant. -/
def mutationName (deliveryMethod : DeliveryMethod) (webhookId : Option String) : String :=
  match deliveryMethod with
  | .Http =>
    if jsTruthy webhookId then "webhookSubscriptionUpdate"
    else "webhookSubscriptionCreate"
  | .EventBridge =>
    if jsTruthy webhookId then "eventBridgeWebhookSubscriptionUpdate"
    else "eventBridgeWebhookSubscriptionCreate"
  | .PubSub =>
    if jsTruthy webhookId then "pubSubWebhookSubscriptionUpdate"
    else "pubSubWebhookSubscriptionCreate"

/-- Embeds the pub/sub address destructuring of `buildQuery`:
`[pubSubProject, pubSubTopic] = address.replace(/^pubsub:\/\//, "").split(":")`,
where a missing second component is JavaScript `undefined`. -/
def pubSubParts (address : String) : Option String × Option String :=
  let parts := jsSplit (dropPubsubScheme address) ':'
  (parts.get? 0, parts.get? 1)

/-- Embeds the `webhookSubscriptionArgs` selection of `buildQuery`: the
delivery-method-specific shape of the address argument. -/
def webhookSubscriptionArgs (deliveryMethod : DeliveryMethod) (address : String) : String :=
  match deliveryMethod with
  | .Http => "\x7bcallbackUrl: \"" ++ address ++ "\"\x7d"
  | .EventBridge => "\x7barn: \"" ++ address ++ "\"\x7d"
  | .PubSub =>
    let parts := pubSubParts address
    "\x7bpubSubProject: \"" ++ jsUndefined parts.1 ++
    "\",\n                                  pubSubTopic: \"" ++ jsUndefined parts.2 ++ "\"\x7d"

/-- Embeds the `identifier` selection of `buildQuery`: `if (webhookId)`,
so a truthy id yields the id identifier while a JavaScript falsy one
(absent or the empty string) yields the topic identifier. -/
def mutationIdentifier (topic : String) (webhookId : Option String) : String :=
  if jsTruthy webhookId then "id: \"" ++ webhookId.getD "" ++ "\""
  else "topic: " ++ topic

/-- The mutation document assembled by `buildQuery` from the selected
mutation name, identifier and address arguments. -/
def mutationDoc (topic address : String) (deliveryMethod : DeliveryMethod)
    (webhookId : Option String) : String :=
  "\n    mutation webhookSubscription \x7b\n      " ++
  mutationName deliveryMethod webhookId ++ "(" ++
  mutationIdentifier topic webhookId ++ ", webhookSubscription: " ++
  webhookSubscriptionArgs deliveryMethod address ++
  ") \x7b\n        userErrors \x7b\n          field\n          message\n        \x7d\n        webhookSubscription \x7b\n          id\n        \x7d\n      \x7d\n    \x7d\n  "

/-- Embeds `validateDeliveryMethod`: pub/sub requested while the active
API version is below the cutoff throws `UnsupportedClientType`. -/
def validateDeliveryMethod (ctx : Context) (deliveryMethod : DeliveryMethod) :
    Except RegisterError Unit :=
  if deliveryMethod = DeliveryMethod.PubSub ∧ ctx.supportsPubSub = false then
    Except.error (RegisterError.unsupportedClientType
      ("Pub/Sub webhooks are not supported in API version \"" ++ ctx.apiVersion ++ "\"."))
  else Except.ok ()

/-- Embeds `buildQuery`: validates the delivery method, then returns the
assembled mutation document. -/
def buildQuery (ctx : Context) (topic address : String) (deliveryMethod : DeliveryMethod)
    (webhookId : Option String) : Except RegisterError String :=
  match validateDeliveryMethod ctx deliveryMethod with
  | .error e => .error e
  | .ok _ => .ok (mutationDoc topic address deliveryMethod webhookId)

/-! ## Registration -/

/-- Embeds `isSuccess`: whether the mutation response carries a non-null
subscription payload under the expected mutation field name, whose
Update/Create part reads the ternary `webhookId ? Update : Create` with
JavaScript truthiness. -/
def isSuccess (result : MutationBody) (deliveryMethod : DeliveryMethod)
    (webhookId : Option String) : Bool :=
  let endpoint :=
    (match deliveryMethod with
     | .Http => "webhookSubscription"
     | .EventBridge => "eventBridgeWebhookSubscription"
     | .PubSub => "pubSubWebhookSubscription") ++
    (if jsTruthy webhookId then "Update" else "Create")
  match result.data with
  | none => false
  | some fields =>
    match fields.find? (fun f => f.1 == endpoint) with
    | none => false
    | some f => f.2.webhookSubscription.isSome

/-- The endpoint-address decode performed by `register` on the first edge
of the check response: `callbackUrl` for an HTTP endpoint, `arn` for an
EventBridge endpoint, the initial empty string otherwise. -/
def decodeEndpointAddress : WebhookEndpoint → String
  | .http callbackUrl => callbackUrl
  | .eventBridge arn => arn
  | .pubSub _ _ => ""

/-- The target address computed by `register`: the host-qualified path for
HTTP delivery, the path verbatim otherwise. -/
def registerAddress (ctx : Context) (opts : RegisterOptions) : String :=
  if opts.deliveryMethod = DeliveryMethod.Http then
    "https://" ++ ctx.hostName ++ opts.path
  else opts.path

/-- Embeds `WebhooksRegistry.register`.  Returns the per-topic outcome (or
the raised error) together with the transcript of every GraphQL document
issued to the client, in order. -/
def register (ctx : Context) (client : ClientOracle) (opts : RegisterOptions) :
    Except RegisterError RegisterReturn × List String :=
  match validateDeliveryMethod ctx opts.deliveryMethod with
  | .error e => (.error e, [])
  | .ok _ =>
    let address := registerAddress ctx opts
    let checkQ := buildCheckQuery ctx opts.topic
    match client.check checkQ with
    | .error e => (.error (.transport e), [checkQ])
    | .ok checkResult =>
      let webhookId : Option String :=
        match checkResult.edges with
        | [] => none
        | edge :: _ => some edge.node.id
      let mustRegister : Bool :=
        match checkResult.edges with
        | [] => true
        | edge :: _ => !(decodeEndpointAddress edge.node.endpoint == address)
      if mustRegister then
        match buildQuery ctx opts.topic address opts.deliveryMethod webhookId with
        | .error e => (.error e, [checkQ])
        | .ok mutQ =>
          match client.mutate mutQ with
          | .error e => (.error (.transport e), [checkQ, mutQ])
          | .ok result =>
            (.ok [(opts.topic,
                   { success := isSuccess result opts.deliveryMethod webhookId,
                     result := some result })],
             [checkQ, mutQ])
      else
        (.ok [(opts.topic, { success := true, result := none })], [checkQ])

/-- Model of the JavaScript object spread `{...a, ...b}` on topic-keyed
mappings: keys of `a` keep their position with values overridden by `b`,
and new keys of `b` are appended. -/
def mergeReturns (a b : RegisterReturn) : RegisterReturn :=
  a.map (fun p =>
    match b.find? (fun q => q.1 == p.1) with
    | some q => q
    | none => p) ++
  b.filter (fun q => !(a.any (fun p => p.1 == q.1)))

/-! ## Handler table -/

/-- A registered webhook handler: invoked with the normalized topic, the
shop domain and the raw body; a thrown error is modelled as `Except.error`. -/
def HandlerFn := String → String → String → Except String Unit

/-- Embeds `WebhookRegistryEntry`: the delivery path and the handler. -/
structure WebhookRegistryEntry where
  path : String
  webhookHandler : HandlerFn

/-- The process-wide handler table, modelled as an association list in
insertion order (JavaScript object key order). -/
abbrev Registry := List (String × WebhookRegistryEntry)

/-- Embeds `WebhooksRegistry.addHandler`: stores the entry under the topic
string exactly as given, overwriting in place when the key exists and
appending otherwise. -/
def addHandler (registry : Registry) (topic : String) (entry : WebhookRegistryEntry) :
    Registry :=
  if registry.any (fun p => p.1 == topic) then
    registry.map (fun p => if p.1 == topic then (topic, entry) else p)
  else registry ++ [(topic, entry)]

/-- Embeds `WebhooksRegistry.getHandler`: the entry stored under exactly
the given topic, if any. -/
def getHandler (registry : Registry) (topic : String) : Option WebhookRegistryEntry :=
  (registry.find? (fun p => p.1 == topic)).map (fun p => p.2)

/-- Embeds `WebhooksRegistry.getTopics`. -/
def getTopics (registry : Registry) : List String :=
  registry.map (fun p => p.1)

/-- Recursion of `registerAll` over the topic list: per topic, look up the
handler, call `register` with its path, and merge the outcome; an error
from `register` propagates immediately (there is no catch in the loop). -/
def registerAllGo (ctx : Context) (client : ClientOracle) (registry : Registry)
    (opts : ShortenedRegisterOptions) :
    List String → RegisterReturn → List String →
    Except RegisterError RegisterReturn × List String
  | [], acc, calls => (.ok acc, calls)
  | topic :: rest, acc, calls =>
    match getHandler registry topic with
    | none => registerAllGo ctx client registry opts rest acc calls
    | some handler =>
      let webhook : RegisterOptions :=
        { path := handler.path, topic := topic, accessToken := opts.accessToken,
          shop := opts.shop, deliveryMethod := opts.deliveryMethod }
      match register ctx client webhook with
      | (.error e, newCalls) => (.error e, calls ++ newCalls)
      | (.ok ret, newCalls) =>
        registerAllGo ctx client registry opts rest (mergeReturns acc ret) (calls ++ newCalls)

/-- Embeds `WebhooksRegistry.registerAll`: iterates the handler table's
topics sequentially, accumulating outcomes and the transcript of issued
GraphQL documents. -/
def registerAll (ctx : Context) (client : ClientOracle) (registry : Registry)
    (opts : ShortenedRegisterOptions) :
    Except RegisterError RegisterReturn × List String :=
  registerAllGo ctx client registry opts (getTopics registry) [] []

/-! ## Inbound processing -/

/-- Modelled from the spec: the three platform-defined required header
names (signature digest, topic, shop domain); the constants themselves
(`ShopifyHeader`) are not part of the embedded sources. -/
def shopifyHeaderHmac : String := "X-Shopify-Hmac-Sha256"

/-- Modelled from the spec: the topic header name. -/
def shopifyHeaderTopic : String := "X-Shopify-Topic"

/-- Modelled from the spec: the shop-domain header name. -/
def shopifyHeaderDomain : String := "X-Shopify-Shop-Domain"

/-- An inbound webhook request: optional raw body and the header mapping.
Modelled from the spec: `flatHeaders` (not part of the embedded sources)
flattens the header object into (name, value) pairs, which is the form
used here directly. -/
structure Request where
  body : Option String
  headers : List (String × String)

/-- The caller-supplied response object: status code and headers as set by
`process`. -/
structure Response where
  statusCode : Option Nat
  headers : List (String × String)
deriving DecidableEq, Repr

/-- The environment read by `process`: the shared secret
(`Context.API_SECRET_KEY`) and the digest function.  `hmacFn` is
Modelled from the spec: it stands for `createSHA256HMAC` (base64-encoded
SHA-256 HMAC), whose implementation is not part of the embedded sources. -/
structure ProcessEnv where
  apiSecretKey : String
  hmacFn : String → String → String

/-- The header-extraction loop of `process`: a case-insensitive scan of
the header pairs in which a later occurrence overwrites an earlier one. -/
def extractHeaders (headers : List (String × String)) :
    Option String × Option String × Option String :=
  headers.foldl
    (fun acc p =>
      if jsToLower p.1 == jsToLower shopifyHeaderHmac then (some p.2, acc.2.1, acc.2.2)
      else if jsToLower p.1 == jsToLower shopifyHeaderTopic then (acc.1, some p.2, acc.2.2)
      else if jsToLower p.1 == jsToLower shopifyHeaderDomain then (acc.1, acc.2.1, some p.2)
      else acc)
    (none, none, none)

/-- The `missingHeaders` list built by `process`, in the fixed push order
Hmac, Topic, Domain. -/
def missingHeadersList (hmac topic domain : Option String) : List String :=
  (if jsFalsy hmac then [shopifyHeaderHmac] else []) ++
  (if jsFalsy topic then [shopifyHeaderTopic] else []) ++
  (if jsFalsy domain then [shopifyHeaderDomain] else [])

/-- The missing-header error message of `process`. -/
def missingHeadersMessage (missing : List String) : String :=
  "Missing one or more of the required HTTP headers to process webhooks: [" ++
  String.intercalate ", " missing ++ "]"

/-- Modelled from the spec: the paired scan underlying the constant-time
comparison of `ShopifyUtilities.safeCompare` (not part of the embedded
sources).  Returns the accumulated mismatch tally and an explicit count
of byte-comparison steps, the cost model for the timing claim. -/
def scanCompare : List Char → List Char → Nat × Nat
  | [], [] => (0, 0)
  | x :: xs, y :: ys =>
    let r := scanCompare xs ys
    ((if x == y then 0 else 1) + r.1, r.2 + 1)
  | _, _ => (1, 0)

/-- Modelled from the spec: `safeCompare` compares the two digests by
first comparing lengths and then scanning every byte pair, accumulating
mismatches rather than returning at the first difference. -/
def safeCompare (a b : String) : Bool :=
  a.data.length == b.data.length && (scanCompare a.data b.data).1 == 0

/-- The comparison-step count of `safeCompare` under the explicit cost
model: the timing observable of the constant-time claim. -/
def safeCompareTime (a b : String) : Nat :=
  (scanCompare a.data b.data).2

/-- Errors raised by `process`: `InvalidWebhookError` with its message, or
the re-surfaced handler error. -/
inductive WebhookError where
  | invalidWebhook (message : String)
  | handlerError (message : String)
deriving DecidableEq, Repr

/-- The observable outcome of one `process` call: the updated response
object, the raised error if any, and the handler invocations performed. -/
structure ProcessOutcome where
  response : Response
  error : Option WebhookError
  handlerCalls : List (String × String × String)
deriving DecidableEq, Repr

/-- Embeds `WebhooksRegistry.process`: body check, required-header check,
signature verification over the raw body, topic normalization, handler
lookup and dispatch, and the status-code mapping, with the raised error
returned alongside the updated response. -/
def process (env : ProcessEnv) (registry : Registry) (request : Request)
    (response : Response) : ProcessOutcome :=
  if jsFalsy request.body then
    { response := { response with statusCode := some 400 },
      error := some (.invalidWebhook "No body was received when processing webhook"),
      handlerCalls := [] }
  else
    let reqBody := request.body.getD ""
    let parsed := extractHeaders request.headers
    let hmac := parsed.1
    let topic := parsed.2.1
    let domain := parsed.2.2
    let missing := missingHeadersList hmac topic domain
    if missing.length > 0 then
      { response := { response with statusCode := some 400 },
        error := some (.invalidWebhook (missingHeadersMessage missing)),
        handlerCalls := [] }
    else
      let generatedHash := env.hmacFn env.apiSecretKey reqBody
      if safeCompare generatedHash (hmac.getD "") then
        let graphqlTopic := normalizeTopic (topic.getD "")
        match getHandler registry graphqlTopic with
        | some webhookEntry =>
          match webhookEntry.webhookHandler graphqlTopic (domain.getD "") reqBody with
          | .ok _ =>
            { response := { statusCode := some 200, headers := [] },
              error := none,
              handlerCalls := [(graphqlTopic, domain.getD "", reqBody)] }
          | .error e =>
            { response := { statusCode := some 500, headers := [] },
              error := some (.handlerError e),
              handlerCalls := [(graphqlTopic, domain.getD "", reqBody)] }
        | none =>
          { response := { statusCode := some 403, headers := [] },
            error := some (.invalidWebhook
              ("No webhook is registered for topic " ++ topic.getD "")),
            handlerCalls := [] }
      else
        { response := { statusCode := some 403, headers := [] },
          error := some (.invalidWebhook
            ("Could not validate request for topic " ++ topic.getD "")),
          handlerCalls := [] }

/-- Modelled from the spec: the status-code condition table of the
inbound processor (missing body or headers 400, signature mismatch 403,
no handler 403, handler threw 500, handler succeeded 200), written from
the words of the specification for comparison against `process`. -/
def specStatus (env : ProcessEnv) (registry : Registry) (request : Request) : Nat :=
  if jsFalsy request.body then 400
  else
    let parsed := extractHeaders request.headers
    if jsFalsy parsed.1 || jsFalsy parsed.2.1 || jsFalsy parsed.2.2 then 400
    else if !safeCompare (env.hmacFn env.apiSecretKey (request.body.getD ""))
        (parsed.1.getD "") then 403
    else
      match getHandler registry (normalizeTopic (parsed.2.1.getD "")) with
      | none => 403
      | some entry =>
        match entry.webhookHandler (normalizeTopic (parsed.2.1.getD ""))
            (parsed.2.2.getD "") (request.body.getD "") with
        | .ok _ => 200
        | .error _ => 500


/-! ## Helper lemmas -/

theorem string_eq_of_data_eq {a b : String} (h : a.data = b.data) : a = b := by
  cases a
  cases b
  exact congrArg String.mk h

theorem scanCompare_snd (a b : List Char) :
    (scanCompare a b).2 = min a.length b.length := by
  induction a generalizing b with
  | nil => cases b <;> simp [scanCompare]
  | cons x xs ih =>
    cases b with
    | nil => simp [scanCompare]
    | cons y ys =>
      simp only [scanCompare, List.length_cons, ih]
      omega

theorem scanCompare_fst_eq_zero (a b : List Char) :
    (scanCompare a b).1 = 0 ↔ a = b := by
  induction a generalizing b with
  | nil => cases b <;> simp [scanCompare]
  | cons x xs ih =>
    cases b with
    | nil => simp [scanCompare]
    | cons y ys =>
      by_cases hxy : (x == y) = true
      · have hx : x = y := eq_of_beq hxy
        simp [scanCompare, hxy, hx, ih]
      · have hx : ¬(x = y) := fun h => hxy (by simp [h])
        simp [scanCompare, hxy, hx]

theorem safeCompare_eq_true_iff (a b : String) : safeCompare a b = true ↔ a = b := by
  unfold safeCompare
  constructor
  · intro h
    have h2 := (Bool.and_eq_true _ _).mp h
    have hz : (scanCompare a.data b.data).1 = 0 := by
      have := h2.2
      simpa using this
    exact string_eq_of_data_eq ((scanCompare_fst_eq_zero a.data b.data).mp hz)
  · intro h
    subst h
    have hz : (scanCompare a.data a.data).1 = 0 :=
      (scanCompare_fst_eq_zero a.data a.data).mpr rfl
    simp [hz]

theorem safeCompare_eq_false_of_ne {a b : String} (h : a ≠ b) :
    safeCompare a b = false := by
  cases hc : safeCompare a b
  · rfl
  · exact absurd ((safeCompare_eq_true_iff a b).mp hc) h

theorem missingHeaders_length_eq_zero_iff (h t d : Option String) :
    (missingHeadersList h t d).length = 0 ↔
      (jsFalsy h || jsFalsy t || jsFalsy d) = false := by
  cases hh : jsFalsy h <;> cases ht : jsFalsy t <;> cases hd : jsFalsy d <;>
    simp [missingHeadersList, hh, ht, hd]

/-! ## Claim theorems -/

/-- C2: the comparison between the computed digest and the received digest
runs in time independent of where the first mismatching byte occurs: under
the explicit cost model of `safeCompare`, the comparison-step count of any
two digest pairs of equal lengths is the same, so it cannot depend on the
position of the first mismatch. -/
theorem claim_c2 (a b a2 b2 : String)
    (ha : a.length = a2.length) (hb : b.length = b2.length) :
    safeCompareTime a b = safeCompareTime a2 b2 := by
  unfold safeCompareTime
  rw [scanCompare_snd, scanCompare_snd]
  have ha2 : a.data.length = a2.data.length := ha
  have hb2 : b.data.length = b2.data.length := hb
  rw [ha2, hb2]

/-- Witness for C2: a pair mismatching at the first byte takes exactly as
many comparison steps as a pair mismatching at the last byte. -/
theorem claim_c2_witness :
    "Q000".length = "000Q".length ∧ "0000".length = "0000".length ∧
    safeCompareTime "Q000" "0000" = safeCompareTime "000Q" "0000" :=
  ⟨by decide, by decide, claim_c2 "Q000" "0000" "000Q" "0000" (by decide) (by decide)⟩

/-- C5: a registration request with delivery method PubSub while the
configured API version is below the July 2021 cutoff fails synchronously
with the UnsupportedClientType error (the spec taxonomy's
UnsupportedTransport) and the transcript of issued GraphQL calls is empty:
neither the check query nor any mutation is sent. -/
theorem claim_c5 (ctx : Context) (client : ClientOracle) (opts : RegisterOptions)
    (hdm : opts.deliveryMethod = DeliveryMethod.PubSub)
    (hver : ctx.supportsPubSub = false) :
    register ctx client opts =
      (Except.error (RegisterError.unsupportedClientType
        ("Pub/Sub webhooks are not supported in API version \"" ++
          ctx.apiVersion ++ "\".")),
       []) := by
  unfold register validateDeliveryMethod
  simp [hdm, hver]

/-- Witness for C5: a concrete PubSub registration below the cutoff. -/
theorem claim_c5_witness :
    register ⟨"test-host", "2020-01", false⟩
      ⟨fun _ => Except.ok ⟨[]⟩, fun _ => Except.ok ⟨none⟩⟩
      ⟨"pubsub://my-project:my-topic", "ORDERS_CREATE", "token", "shop.example",
       DeliveryMethod.PubSub⟩ =
      (Except.error (RegisterError.unsupportedClientType
        ("Pub/Sub webhooks are not supported in API version \"" ++
          "2020-01" ++ "\".")),
       []) :=
  claim_c5 _ _ _ rfl rfl

/-- C7: `buildQuery` selects the mutation name from the method table,
choosing the Update variant exactly when a truthy (nonempty) existing
subscription id is supplied and the Create variant otherwise — a
JavaScript falsy id, absent or the empty string, selects Create — builds
the address argument in the method shape (callbackUrl, arn, or the
pub/sub project and topic obtained by stripping the scheme and splitting
on the colon), and returns the document assembled from these
selections. -/
theorem claim_c7 :
    (∀ i : String,
      (i == "") = false →
      mutationName DeliveryMethod.Http (some i) = "webhookSubscriptionUpdate" ∧
      mutationName DeliveryMethod.EventBridge (some i) =
        "eventBridgeWebhookSubscriptionUpdate" ∧
      mutationName DeliveryMethod.PubSub (some i) = "pubSubWebhookSubscriptionUpdate") ∧
    (∀ w : Option String,
      jsTruthy w = false →
      mutationName DeliveryMethod.Http w = "webhookSubscriptionCreate" ∧
      mutationName DeliveryMethod.EventBridge w =
        "eventBridgeWebhookSubscriptionCreate" ∧
      mutationName DeliveryMethod.PubSub w = "pubSubWebhookSubscriptionCreate") ∧
    (∀ address : String,
      webhookSubscriptionArgs DeliveryMethod.Http address =
        "\x7bcallbackUrl: \"" ++ address ++ "\"\x7d" ∧
      webhookSubscriptionArgs DeliveryMethod.EventBridge address =
        "\x7barn: \"" ++ address ++ "\"\x7d" ∧
      webhookSubscriptionArgs DeliveryMethod.PubSub address =
        "\x7bpubSubProject: \"" ++
          jsUndefined ((jsSplit (dropPubsubScheme address) ':').get? 0) ++
          "\",\n                                  pubSubTopic: \"" ++
          jsUndefined ((jsSplit (dropPubsubScheme address) ':').get? 1) ++ "\"\x7d") ∧
    (∀ (ctx : Context) (topic address : String) (dm : DeliveryMethod)
        (wid : Option String),
      ctx.supportsPubSub = true →
      buildQuery ctx topic address dm wid =
        Except.ok (mutationDoc topic address dm wid)) := by
  refine ⟨?_, ?_, fun address => ⟨rfl, rfl, rfl⟩, ?_⟩
  · intro i hi
    refine ⟨?_, ?_, ?_⟩ <;> simp [mutationName, jsTruthy, jsFalsy, hi]
  · intro w hw
    refine ⟨?_, ?_, ?_⟩ <;> simp [mutationName, hw]
  · intro ctx topic address dm wid hps
    unfold buildQuery validateDeliveryMethod
    simp [hps]

/-- Witness for C7: the PubSub selection at a concrete nonempty id, at the
JavaScript-falsy empty-string id, and at a concrete address. -/
theorem claim_c7_witness :
    mutationName DeliveryMethod.PubSub (some "gid") = "pubSubWebhookSubscriptionUpdate" ∧
    mutationName DeliveryMethod.PubSub (some "") = "pubSubWebhookSubscriptionCreate" ∧
    webhookSubscriptionArgs DeliveryMethod.PubSub "pubsub://my-project:my-topic" =
      "\x7bpubSubProject: \"my-project" ++
        "\",\n                                  pubSubTopic: \"my-topic\"\x7d" ∧
    buildQuery ⟨"test-host", "2021-07", true⟩ "ORDERS_CREATE"
        "pubsub://my-project:my-topic" DeliveryMethod.PubSub none =
      Except.ok (mutationDoc "ORDERS_CREATE" "pubsub://my-project:my-topic"
        DeliveryMethod.PubSub none) := by
  refine ⟨(claim_c7.1 "gid" (by decide)).2.2,
    (claim_c7.2.1 (some "") (by decide)).2.2, ?_,
    claim_c7.2.2.2 ⟨"test-host", "2021-07", true⟩ "ORDERS_CREATE"
      "pubsub://my-project:my-topic" DeliveryMethod.PubSub none rfl⟩
  rw [(claim_c7.2.2.1 "pubsub://my-project:my-topic").2.2]
  decide

theorem buildQuery_ok (ctx : Context) (topic address : String)
    (dm : DeliveryMethod) (wid : Option String)
    (h : validateDeliveryMethod ctx dm = Except.ok ()) :
    buildQuery ctx topic address dm wid =
      Except.ok (mutationDoc topic address dm wid) := by
  unfold buildQuery
  rw [h]

/-- C1: when the check query reports an existing remote subscription whose
decoded endpoint address equals the target address exactly, `register`
records a skip-outcome (success true, empty raw result) and its transcript
is the check query alone, with no mutation; hence registering the same
topic twice with the same target address, where the first check finds no
subscription and the second finds the now-matching one, issues exactly one
mutation document over the two combined transcripts. -/
theorem claim_c1 :
    (∀ (ctx : Context) (client : ClientOracle) (opts : RegisterOptions)
        (resp : WebhookCheckResponse) (edge : WebhookEdge) (rest : List WebhookEdge),
      validateDeliveryMethod ctx opts.deliveryMethod = Except.ok () →
      client.check (buildCheckQuery ctx opts.topic) = Except.ok resp →
      resp.edges = edge :: rest →
      decodeEndpointAddress edge.node.endpoint = registerAddress ctx opts →
      register ctx client opts =
        (Except.ok [(opts.topic, { success := true, result := none })],
         [buildCheckQuery ctx opts.topic])) ∧
    (∀ (ctx : Context) (client1 client2 : ClientOracle) (opts : RegisterOptions)
        (resp2 : WebhookCheckResponse) (edge : WebhookEdge) (rest : List WebhookEdge),
      validateDeliveryMethod ctx opts.deliveryMethod = Except.ok () →
      client1.check (buildCheckQuery ctx opts.topic) = Except.ok ⟨[]⟩ →
      client2.check (buildCheckQuery ctx opts.topic) = Except.ok resp2 →
      resp2.edges = edge :: rest →
      decodeEndpointAddress edge.node.endpoint = registerAddress ctx opts →
      (register ctx client1 opts).2 =
        [buildCheckQuery ctx opts.topic,
         mutationDoc opts.topic (registerAddress ctx opts) opts.deliveryMethod none] ∧
      (register ctx client2 opts).2 = [buildCheckQuery ctx opts.topic]) := by
  constructor
  · intro ctx client opts resp edge rest hval hcheck hedges haddr
    unfold register
    rw [hval]
    simp only [hcheck, hedges, haddr]
    simp
  · intro ctx client1 client2 opts resp2 edge rest hval hcheck1 hcheck2 hedges haddr
    constructor
    · unfold register
      rw [hval]
      simp only [hcheck1]
      simp only [buildQuery_ok ctx opts.topic (registerAddress ctx opts)
        opts.deliveryMethod none hval]
      cases hm : client1.mutate
          (mutationDoc opts.topic (registerAddress ctx opts) opts.deliveryMethod none) <;>
        simp [hm]
    · unfold register
      rw [hval]
      simp only [hcheck2, hedges, haddr]
      simp

/-- Witness for C1: a concrete HTTP registration pair, the first against a
remote with no subscription on the topic, the second against the remote
state holding the created subscription at the target address. -/
theorem claim_c1_witness :
    register ⟨"test-host", "2021-07", true⟩
      ⟨fun _ => Except.ok ⟨[⟨⟨"gid1", WebhookEndpoint.http "https://test-host/webhooks"⟩⟩]⟩,
       fun _ => Except.ok ⟨some [("webhookSubscriptionCreate", ⟨some "gid1"⟩)]⟩⟩
      ⟨"/webhooks", "ORDERS_CREATE", "token", "shop.example", DeliveryMethod.Http⟩ =
      (Except.ok [("ORDERS_CREATE", { success := true, result := none })],
       [buildCheckQuery ⟨"test-host", "2021-07", true⟩ "ORDERS_CREATE"]) ∧
    (register ⟨"test-host", "2021-07", true⟩
      ⟨fun _ => Except.ok ⟨[]⟩,
       fun _ => Except.ok ⟨some [("webhookSubscriptionCreate", ⟨some "gid1"⟩)]⟩⟩
      ⟨"/webhooks", "ORDERS_CREATE", "token", "shop.example", DeliveryMethod.Http⟩).2 =
      [buildCheckQuery ⟨"test-host", "2021-07", true⟩ "ORDERS_CREATE",
       mutationDoc "ORDERS_CREATE" "https://test-host/webhooks" DeliveryMethod.Http none] ∧
    (register ⟨"test-host", "2021-07", true⟩
      ⟨fun _ => Except.ok ⟨[⟨⟨"gid1", WebhookEndpoint.http "https://test-host/webhooks"⟩⟩]⟩,
       fun _ => Except.ok ⟨some [("webhookSubscriptionCreate", ⟨some "gid1"⟩)]⟩⟩
      ⟨"/webhooks", "ORDERS_CREATE", "token", "shop.example", DeliveryMethod.Http⟩).2 =
      [buildCheckQuery ⟨"test-host", "2021-07", true⟩ "ORDERS_CREATE"] := by
  refine ⟨claim_c1.1 _ _ _ _ _ _ rfl rfl rfl rfl, ?_, ?_⟩
  · exact (claim_c1.2 ⟨"test-host", "2021-07", true⟩
      ⟨fun _ => Except.ok ⟨[]⟩,
       fun _ => Except.ok ⟨some [("webhookSubscriptionCreate", ⟨some "gid1"⟩)]⟩⟩
      ⟨fun _ => Except.ok ⟨[⟨⟨"gid1", WebhookEndpoint.http "https://test-host/webhooks"⟩⟩]⟩,
       fun _ => Except.ok ⟨some [("webhookSubscriptionCreate", ⟨some "gid1"⟩)]⟩⟩
      ⟨"/webhooks", "ORDERS_CREATE", "token", "shop.example", DeliveryMethod.Http⟩
      _ _ _ rfl rfl rfl rfl rfl).1
  · exact (claim_c1.2 ⟨"test-host", "2021-07", true⟩
      ⟨fun _ => Except.ok ⟨[]⟩,
       fun _ => Except.ok ⟨some [("webhookSubscriptionCreate", ⟨some "gid1"⟩)]⟩⟩
      ⟨fun _ => Except.ok ⟨[⟨⟨"gid1", WebhookEndpoint.http "https://test-host/webhooks"⟩⟩]⟩,
       fun _ => Except.ok ⟨some [("webhookSubscriptionCreate", ⟨some "gid1"⟩)]⟩⟩
      ⟨"/webhooks", "ORDERS_CREATE", "token", "shop.example", DeliveryMethod.Http⟩
      _ _ _ rfl rfl rfl rfl rfl).2

/-- C6: when the existing remote subscription points at a different
address, `register` issues exactly one mutation after the check query, and
it is built with the existing subscription id; that id, being a truthy
(nonempty) string, selects the Update mutation name for every delivery
method — a JavaScript falsy empty-string id would select Create instead,
so the nonemptiness of the found id is an explicit hypothesis. -/
theorem claim_c6 (ctx : Context) (client : ClientOracle) (opts : RegisterOptions)
    (resp : WebhookCheckResponse) (edge : WebhookEdge) (rest : List WebhookEdge)
    (hval : validateDeliveryMethod ctx opts.deliveryMethod = Except.ok ())
    (hcheck : client.check (buildCheckQuery ctx opts.topic) = Except.ok resp)
    (hedges : resp.edges = edge :: rest)
    (haddr : decodeEndpointAddress edge.node.endpoint ≠ registerAddress ctx opts)
    (hid : (edge.node.id == "") = false) :
    (register ctx client opts).2 =
      [buildCheckQuery ctx opts.topic,
       mutationDoc opts.topic (registerAddress ctx opts) opts.deliveryMethod
         (some edge.node.id)] ∧
    mutationName opts.deliveryMethod (some edge.node.id) =
      (match opts.deliveryMethod with
       | DeliveryMethod.Http => "webhookSubscriptionUpdate"
       | DeliveryMethod.EventBridge => "eventBridgeWebhookSubscriptionUpdate"
       | DeliveryMethod.PubSub => "pubSubWebhookSubscriptionUpdate") := by
  constructor
  · unfold register
    rw [hval]
    simp only [hcheck, hedges]
    simp only [buildQuery_ok ctx opts.topic (registerAddress ctx opts)
      opts.deliveryMethod (some edge.node.id) hval]
    have hb : (decodeEndpointAddress edge.node.endpoint ==
        registerAddress ctx opts) = false := by
      simpa using haddr
    cases hm : client.mutate
        (mutationDoc opts.topic (registerAddress ctx opts) opts.deliveryMethod
          (some edge.node.id)) <;>
      simp [hb, hm]
  · cases opts.deliveryMethod <;> simp [mutationName, jsTruthy, jsFalsy, hid]

/-- Witness for C6: a concrete topic whose existing subscription points at
another callback URL, so the issued document is the update mutation. -/
theorem claim_c6_witness :
    (register ⟨"test-host", "2021-07", true⟩
      ⟨fun _ => Except.ok ⟨[⟨⟨"gid0", WebhookEndpoint.http "https://old-host/other"⟩⟩]⟩,
       fun _ => Except.ok ⟨some [("webhookSubscriptionUpdate", ⟨some "gid0"⟩)]⟩⟩
      ⟨"/webhooks", "ORDERS_CREATE", "token", "shop.example", DeliveryMethod.Http⟩).2 =
      [buildCheckQuery ⟨"test-host", "2021-07", true⟩ "ORDERS_CREATE",
       mutationDoc "ORDERS_CREATE" "https://test-host/webhooks" DeliveryMethod.Http
         (some "gid0")] ∧
    mutationName DeliveryMethod.Http (some "gid0") = "webhookSubscriptionUpdate" :=
  claim_c6 ⟨"test-host", "2021-07", true⟩
    ⟨fun _ => Except.ok ⟨[⟨⟨"gid0", WebhookEndpoint.http "https://old-host/other"⟩⟩]⟩,
     fun _ => Except.ok ⟨some [("webhookSubscriptionUpdate", ⟨some "gid0"⟩)]⟩⟩
    ⟨"/webhooks", "ORDERS_CREATE", "token", "shop.example", DeliveryMethod.Http⟩
    ⟨[⟨⟨"gid0", WebhookEndpoint.http "https://old-host/other"⟩⟩]⟩
    ⟨⟨"gid0", WebhookEndpoint.http "https://old-host/other"⟩⟩ []
    rfl rfl rfl (by decide) (by decide)

set_option maxRecDepth 8192 in
set_option maxHeartbeats 1000000 in
/-- C4 counterexample: over three registered topics where the second
topic's mutation call rejects, `registerAll` does not return a mapping at
all — the rejection propagates out of the loop, so the claimed outcomes
for the first and third topics are never returned. -/
theorem claim_c4_counterexample :
    (registerAll ⟨"test-host", "2021-07", true⟩
      ⟨fun _ => Except.ok ⟨[]⟩,
       fun q =>
         if q == mutationDoc "TOPIC_TWO" "https://test-host/webhooks"
             DeliveryMethod.Http none then
           Except.error (TransportError.network "failed")
         else Except.ok ⟨some [("webhookSubscriptionCreate", ⟨some "gid"⟩)]⟩⟩
      [("TOPIC_ONE", ⟨"/webhooks", fun _ _ _ => Except.ok ()⟩),
       ("TOPIC_TWO", ⟨"/webhooks", fun _ _ _ => Except.ok ()⟩),
       ("TOPIC_THREE", ⟨"/webhooks", fun _ _ _ => Except.ok ()⟩)]
      ⟨"token", "shop.example", DeliveryMethod.Http⟩).1 =
    Except.error (RegisterError.transport (TransportError.network "failed")) := rfl

set_option maxRecDepth 8192 in
set_option maxHeartbeats 1000000 in
/-- C4 (amended): `registerAll` processes the handler table's topics
sequentially; a topic whose mutation call resolves with an unsuccessful
GraphQL result yields an outcome with success false and does not abort the
remaining topics, so outcomes for all three topics are returned — but a
topic whose mutation call rejects aborts the loop and no mapping is
returned (see the counterexample). -/
theorem claim_c4 :
    registerAll ⟨"test-host", "2021-07", true⟩
      ⟨fun _ => Except.ok ⟨[]⟩,
       fun q =>
         if q == mutationDoc "TOPIC_TWO" "https://test-host/webhooks"
             DeliveryMethod.Http none then
           Except.ok ⟨some []⟩
         else Except.ok ⟨some [("webhookSubscriptionCreate", ⟨some "gid"⟩)]⟩⟩
      [("TOPIC_ONE", ⟨"/webhooks", fun _ _ _ => Except.ok ()⟩),
       ("TOPIC_TWO", ⟨"/webhooks", fun _ _ _ => Except.ok ()⟩),
       ("TOPIC_THREE", ⟨"/webhooks", fun _ _ _ => Except.ok ()⟩)]
      ⟨"token", "shop.example", DeliveryMethod.Http⟩ =
    (Except.ok
      [("TOPIC_ONE",
        { success := true,
          result := some ⟨some [("webhookSubscriptionCreate", ⟨some "gid"⟩)]⟩ }),
       ("TOPIC_TWO", { success := false, result := some ⟨some []⟩ }),
       ("TOPIC_THREE",
        { success := true,
          result := some ⟨some [("webhookSubscriptionCreate", ⟨some "gid"⟩)]⟩ })],
     [buildCheckQuery ⟨"test-host", "2021-07", true⟩ "TOPIC_ONE",
      mutationDoc "TOPIC_ONE" "https://test-host/webhooks" DeliveryMethod.Http none,
      buildCheckQuery ⟨"test-host", "2021-07", true⟩ "TOPIC_TWO",
      mutationDoc "TOPIC_TWO" "https://test-host/webhooks" DeliveryMethod.Http none,
      buildCheckQuery ⟨"test-host", "2021-07", true⟩ "TOPIC_THREE",
      mutationDoc "TOPIC_THREE" "https://test-host/webhooks" DeliveryMethod.Http none]) :=
  rfl


/-- C3: an inbound request with a body and all three required headers
present whose signature digest differs from the HMAC computed over the raw
body never invokes any handler, sets status 403, and raises InvalidWebhook
with the validation-failure message — for every registry, in particular
when a handler is registered for the request's topic. -/
theorem claim_c3 (env : ProcessEnv) (registry : Registry) (request : Request)
    (response : Response) (b hv tv dv : String)
    (hbody : request.body = some b) (hbne : (b == "") = false)
    (hhdr : extractHeaders request.headers = (some hv, some tv, some dv))
    (hhv : (hv == "") = false) (htv : (tv == "") = false) (hdv : (dv == "") = false)
    (hsig : env.hmacFn env.apiSecretKey b ≠ hv) :
    (process env registry request response).handlerCalls = [] ∧
    (process env registry request response).response.statusCode = some 403 ∧
    (process env registry request response).error =
      some (WebhookError.invalidWebhook
        ("Could not validate request for topic " ++ tv)) := by
  have hsc : safeCompare (env.hmacFn env.apiSecretKey b) hv = false :=
    safeCompare_eq_false_of_ne hsig
  unfold process
  simp [hbody, jsFalsy, hbne, hhdr, missingHeadersList, hhv, htv, hdv, hsc]

/-- Witness for C3: a mismatching digest with a handler registered for the
request's topic still yields 403, an InvalidWebhook error, and no handler
invocation. -/
theorem claim_c3_witness :
    (process ⟨"secret", fun _ _ => "digest"⟩
      [("ORDERS_CREATE", ⟨"/webhooks", fun _ _ _ => Except.ok ()⟩)]
      ⟨some "body",
       [(shopifyHeaderHmac, "wrong"), (shopifyHeaderTopic, "orders/create"),
        (shopifyHeaderDomain, "shop.example")]⟩
      ⟨none, []⟩).handlerCalls = [] ∧
    (process ⟨"secret", fun _ _ => "digest"⟩
      [("ORDERS_CREATE", ⟨"/webhooks", fun _ _ _ => Except.ok ()⟩)]
      ⟨some "body",
       [(shopifyHeaderHmac, "wrong"), (shopifyHeaderTopic, "orders/create"),
        (shopifyHeaderDomain, "shop.example")]⟩
      ⟨none, []⟩).response.statusCode = some 403 ∧
    (process ⟨"secret", fun _ _ => "digest"⟩
      [("ORDERS_CREATE", ⟨"/webhooks", fun _ _ _ => Except.ok ()⟩)]
      ⟨some "body",
       [(shopifyHeaderHmac, "wrong"), (shopifyHeaderTopic, "orders/create"),
        (shopifyHeaderDomain, "shop.example")]⟩
      ⟨none, []⟩).error =
      some (WebhookError.invalidWebhook
        ("Could not validate request for topic " ++ "orders/create")) :=
  claim_c3 ⟨"secret", fun _ _ => "digest"⟩
    [("ORDERS_CREATE", ⟨"/webhooks", fun _ _ _ => Except.ok ()⟩)]
    ⟨some "body",
     [(shopifyHeaderHmac, "wrong"), (shopifyHeaderTopic, "orders/create"),
      (shopifyHeaderDomain, "shop.example")]⟩
    ⟨none, []⟩ "body" "wrong" "orders/create" "shop.example"
    rfl rfl rfl rfl rfl rfl (by decide)

/-- C9: an inbound request with a body but with required headers missing
yields 400 and an InvalidWebhook error whose message enumerates the
missing-header list built in the fixed order Hmac, Topic, Domain; when
only the topic header is missing that list is exactly the topic header. -/
theorem claim_c9 (env : ProcessEnv) (registry : Registry) (request : Request)
    (response : Response) (b : String) (h t d : Option String)
    (hbody : request.body = some b) (hbne : (b == "") = false)
    (hhdr : extractHeaders request.headers = (h, t, d))
    (hmiss : (jsFalsy h || jsFalsy t || jsFalsy d) = true) :
    (process env registry request response).response.statusCode = some 400 ∧
    (process env registry request response).error =
      some (WebhookError.invalidWebhook
        (missingHeadersMessage (missingHeadersList h t d))) ∧
    (jsFalsy h = false → jsFalsy t = true → jsFalsy d = false →
      missingHeadersList h t d = [shopifyHeaderTopic]) := by
  have hlen : (missingHeadersList h t d).length > 0 := by
    rcases Nat.eq_zero_or_pos (missingHeadersList h t d).length with hz | hp
    · rw [missingHeaders_length_eq_zero_iff] at hz
      rw [hz] at hmiss
      cases hmiss
    · exact hp
  refine ⟨?_, ?_, ?_⟩
  · unfold process
    simp [hbody, jsFalsy, hbne, hhdr, hlen]
  · unfold process
    simp [hbody, jsFalsy, hbne, hhdr, hlen]
  · intro hh ht hd
    simp [missingHeadersList, hh, ht, hd]

/-- Witness for C9: a request carrying only the digest and domain headers
yields 400 with a message listing exactly the topic header. -/
theorem claim_c9_witness :
    (process ⟨"secret", fun _ _ => "digest"⟩ []
      ⟨some "body", [(shopifyHeaderHmac, "digest"), (shopifyHeaderDomain, "d")]⟩
      ⟨none, []⟩).response.statusCode = some 400 ∧
    (process ⟨"secret", fun _ _ => "digest"⟩ []
      ⟨some "body", [(shopifyHeaderHmac, "digest"), (shopifyHeaderDomain, "d")]⟩
      ⟨none, []⟩).error =
      some (WebhookError.invalidWebhook
        (missingHeadersMessage (missingHeadersList (some "digest") none (some "d")))) ∧
    missingHeadersList (some "digest") none (some "d") = [shopifyHeaderTopic] := by
  have h := claim_c9 ⟨"secret", fun _ _ => "digest"⟩ []
    ⟨some "body", [(shopifyHeaderHmac, "digest"), (shopifyHeaderDomain, "d")]⟩
    ⟨none, []⟩ "body" (some "digest") none (some "d") rfl rfl rfl (by decide)
  exact ⟨h.1, h.2.1, h.2.2 (by decide) (by decide) (by decide)⟩

theorem find_map_replace_other (topic other : String) (entry : WebhookRegistryEntry)
    (hto : (topic == other) = false) :
    ∀ registry : Registry,
      (registry.map (fun p => if p.1 == topic then (topic, entry) else p)).find?
          (fun p => p.1 == other) =
        registry.find? (fun p => p.1 == other)
  | [] => rfl
  | p :: rest => by
    by_cases hp : (p.1 == topic) = true
    · have hpe : p.1 = topic := eq_of_beq hp
      have hpo : (p.1 == other) = false := by rw [hpe]; exact hto
      simp only [List.map_cons, hp, if_true]
      simp only [List.find?, hto, hpo]
      exact find_map_replace_other topic other entry hto rest
    · have hpb : (p.1 == topic) = false := by
        cases hx : (p.1 == topic)
        · rfl
        · exact absurd hx hp
      simp only [List.map_cons, hpb, Bool.false_eq_true, if_false]
      by_cases ho : (p.1 == other) = true
      · simp only [List.find?, ho]
      · have hob : (p.1 == other) = false := by
          cases hx : (p.1 == other)
          · rfl
          · exact absurd hx ho
        simp only [List.find?, hob]
        exact find_map_replace_other topic other entry hto rest

theorem find_append_other (topic other : String) (entry : WebhookRegistryEntry)
    (hto : (topic == other) = false) :
    ∀ registry : Registry,
      (registry ++ [(topic, entry)]).find? (fun p => p.1 == other) =
        registry.find? (fun p => p.1 == other)
  | [] => by
    simp only [List.nil_append, List.find?]
    simp [hto]
  | p :: rest => by
    rw [List.cons_append]
    by_cases ho : (p.1 == other) = true
    · simp only [List.find?, ho]
    · have hob : (p.1 == other) = false := by
        cases hx : (p.1 == other)
        · rfl
        · exact absurd hx ho
      simp only [List.find?, hob]
      exact find_append_other topic other entry hto rest

/-- C10: `addHandler` stores under the exact topic key given, `process`
looks up under the normalized inbound topic, a valid-signature request
dispatches a handler exactly when one is stored under that normalized key,
and no normalized key can equal a slash-containing key such as
"orders/create", so a handler registered under it is never dispatched. -/
theorem claim_c10 :
    (∀ (registry : Registry) (topic : String) (entry : WebhookRegistryEntry),
      getHandler (addHandler registry topic entry) topic = some entry) ∧
    (∀ (registry : Registry) (topic : String) (entry : WebhookRegistryEntry)
        (other : String),
      (other == topic) = false →
      getHandler (addHandler registry topic entry) other = getHandler registry other) ∧
    (∀ topic : String, normalizeTopic topic ≠ "orders/create") ∧
    (∀ (env : ProcessEnv) (registry : Registry) (request : Request)
        (response : Response) (b hv tv dv : String),
      request.body = some b → (b == "") = false →
      extractHeaders request.headers = (some hv, some tv, some dv) →
      (hv == "") = false → (tv == "") = false → (dv == "") = false →
      env.hmacFn env.apiSecretKey b = hv →
      ((process env registry request response).handlerCalls ≠ [] ↔
        (getHandler registry (normalizeTopic tv)).isSome = true)) := by
  refine ⟨?_, ?_, ?_, ?_⟩
  · intro registry topic entry
    unfold addHandler getHandler
    by_cases hany : registry.any (fun p => p.1 == topic) = true
    · simp only [hany, if_true]
      induction registry with
      | nil => simp at hany
      | cons p rest ih =>
        by_cases hp : (p.1 == topic) = true
        · simp [List.find?, hp]
        · simp only [List.any_cons, hp, Bool.false_or] at hany
          simp only [List.map_cons, hp, if_false, List.find?, hp]
          simpa [hp] using ih hany
    · simp only [hany, if_false]
      induction registry with
      | nil => simp [List.find?]
      | cons p rest ih =>
        simp only [List.any_cons, Bool.or_eq_true, not_or] at hany
        have hp : (p.1 == topic) = false := by
          cases hx : (p.1 == topic)
          · rfl
          · exact absurd hx hany.1
        simp only [List.cons_append, List.find?, hp]
        exact ih (by simp [hany.2])
  · intro registry topic entry other hne
    have hto : (topic == other) = false := by
      cases hy : (topic == other)
      · rfl
      · exfalso
        have he : other = topic := (eq_of_beq hy).symm
        rw [he] at hne
        simp at hne
    unfold addHandler getHandler
    by_cases hany : registry.any (fun p => p.1 == topic) = true
    · simp only [hany, if_true]
      rw [find_map_replace_other topic other entry hto registry]
    · simp only [hany, Bool.false_eq_true, if_false]
      rw [find_append_other topic other entry hto registry]
  · intro topic h
    have hdata : (normalizeTopic topic).data = "orders/create".data :=
      congrArg String.data h
    have hmem2 : '/' ∈ ((jsToUpper topic).data.map
        (fun c => if c == '/' then '_' else c)) := by
      have hmem : '/' ∈ (normalizeTopic topic).data := by
        rw [hdata]
        decide
      exact hmem
    rcases List.mem_map.mp hmem2 with ⟨c, _, hc⟩
    by_cases h70 : (c == '/') = true
    · rw [if_pos h70] at hc
      cases hc
    · rw [if_neg h70] at hc
      rw [hc] at h70
      simp at h70
  · intro env registry request response b hv tv dv hbody hbne hhdr hhv htv hdv hsig
    have hsc : safeCompare (env.hmacFn env.apiSecretKey b) hv = true :=
      (safeCompare_eq_true_iff _ _).mpr hsig
    unfold process
    cases hg : getHandler registry (normalizeTopic tv) with
    | none =>
      simp [hbody, jsFalsy, hbne, hhdr, missingHeadersList, hhv, htv, hdv, hsc, hg]
    | some entry =>
      cases hh : entry.webhookHandler (normalizeTopic tv) dv b with
      | ok u =>
        simp [hbody, jsFalsy, hbne, hhdr, missingHeadersList, hhv, htv, hdv, hsc, hg, hh]
      | error e =>
        simp [hbody, jsFalsy, hbne, hhdr, missingHeadersList, hhv, htv, hdv, hsc, hg, hh]


/-- Witness for C10: exact-key storage and lookup, no normalization on
store, no dispatch for a handler registered under the raw
"orders/create" key. -/
theorem claim_c10_witness :
    getHandler (addHandler [] "ORDERS_CREATE" ⟨"/webhooks", fun _ _ _ => Except.ok ()⟩)
        "ORDERS_CREATE" =
      some ⟨"/webhooks", fun _ _ _ => Except.ok ()⟩ ∧
    getHandler (addHandler [] "ORDERS_CREATE" ⟨"/webhooks", fun _ _ _ => Except.ok ()⟩)
        "ORDERS_DELETE" = getHandler ([] : Registry) "ORDERS_DELETE" ∧
    normalizeTopic "orders/create" ≠ "orders/create" ∧
    ((process ⟨"secret", fun _ _ => "digest"⟩
        [("orders/create", ⟨"/webhooks", fun _ _ _ => Except.ok ()⟩)]
        ⟨some "body",
         [(shopifyHeaderHmac, "digest"), (shopifyHeaderTopic, "orders/create"),
          (shopifyHeaderDomain, "shop.example")]⟩
        ⟨none, []⟩).handlerCalls ≠ [] ↔
      (getHandler [("orders/create", ⟨"/webhooks", fun _ _ _ => Except.ok ()⟩)]
        (normalizeTopic "orders/create")).isSome = true) :=
  ⟨claim_c10.1 [] "ORDERS_CREATE" ⟨"/webhooks", fun _ _ _ => Except.ok ()⟩,
   claim_c10.2.1 [] "ORDERS_CREATE" ⟨"/webhooks", fun _ _ _ => Except.ok ()⟩
     "ORDERS_DELETE" (by decide),
   claim_c10.2.2.1 "orders/create",
   claim_c10.2.2.2 ⟨"secret", fun _ _ => "digest"⟩
     [("orders/create", ⟨"/webhooks", fun _ _ _ => Except.ok ()⟩)]
     ⟨some "body",
      [(shopifyHeaderHmac, "digest"), (shopifyHeaderTopic, "orders/create"),
       (shopifyHeaderDomain, "shop.example")]⟩
     ⟨none, []⟩ "body" "digest" "orders/create" "shop.example"
     rfl rfl rfl rfl rfl rfl rfl⟩

/-- C8: for every inbound request, the status code set by `process` equals
the specification's condition table (400 missing body or headers, 403
signature mismatch, 403 no handler, 500 handler threw, 200 handler
succeeded); the status code is always set on the response, and an error is
raised exactly when the status is not 200. -/
theorem claim_c8 (env : ProcessEnv) (registry : Registry) (request : Request)
    (response : Response) :
    (process env registry request response).response.statusCode =
      some (specStatus env registry request) ∧
    ((process env registry request response).error.isSome ↔
      specStatus env registry request ≠ 200) := by
  unfold process specStatus
  cases hb : jsFalsy request.body with
  | true => simp [hb]
  | false =>
    rcases hp : extractHeaders request.headers with ⟨h, td⟩
    rcases td with ⟨t, d⟩
    by_cases hm : (jsFalsy h || jsFalsy t || jsFalsy d) = true
    · have hlen : (missingHeadersList h t d).length > 0 := by
        rcases Nat.eq_zero_or_pos (missingHeadersList h t d).length with hz | hpos
        · rw [missingHeaders_length_eq_zero_iff] at hz
          rw [hz] at hm
          cases hm
        · exact hpos
      simp [hb, hp, hm, hlen]
    · have hm2 : (jsFalsy h || jsFalsy t || jsFalsy d) = false := by
        cases hx : (jsFalsy h || jsFalsy t || jsFalsy d)
        · rfl
        · exact absurd hx hm
      have hlen0 : (missingHeadersList h t d).length = 0 :=
        (missingHeaders_length_eq_zero_iff h t d).mpr hm2
      have hnpos : ¬((missingHeadersList h t d).length > 0) := by omega
      by_cases hsc : safeCompare (env.hmacFn env.apiSecretKey (request.body.getD ""))
          (h.getD "") = true
      · cases hg : getHandler registry (normalizeTopic (t.getD "")) with
        | none => simp [hb, hp, hm2, hnpos, hsc, hg]
        | some entry =>
          cases hh : entry.webhookHandler (normalizeTopic (t.getD "")) (d.getD "")
              (request.body.getD "") with
          | ok u => simp [hb, hp, hm2, hnpos, hsc, hg, hh]
          | error e => simp [hb, hp, hm2, hnpos, hsc, hg, hh]
      · have hsc2 : safeCompare (env.hmacFn env.apiSecretKey (request.body.getD ""))
            (h.getD "") = false := by
          cases hx : safeCompare (env.hmacFn env.apiSecretKey (request.body.getD ""))
              (h.getD "")
          · rfl
          · exact absurd hx hsc
        simp [hb, hp, hm2, hnpos, hsc2]

end ShopifyWebhooks
